import Mathlib

set_option autoImplicit false

/-!
Shallow embedding of the gomcp repository (packages `mcpserver`, `mcpclient`
and the `main` demo): JSON-RPC envelopes, the method enable/disable table,
the three capability registries (tools / resources / prompts), the HTTP and
WebSocket dispatch switches, the client id counters, the unified client
facade, and the SSE line parser.  Go maps are modelled as association lists
with overwrite-on-insert; `json.RawMessage` payloads are modelled by the
`Raw` type; IEEE doubles appearing in demo handler outputs are modelled as
rationals (no claim inspects them numerically).
-/

namespace GoMCP

/-- JSON value, the image of Go's `interface{}` data under `encoding/json`. -/
inductive Jval where
  | null
  | bool (b : Bool)
  | num (q : Rat)
  | str (s : String)
  | arr (elems : List Jval)
  | obj (fields : List (String × Jval))

/-- Raw JSON payload (`json.RawMessage`): a Go nil slice (`absent`, unmarshal
fails with "unexpected end of JSON input"), malformed bytes (`invalid`), or
bytes that encode the JSON value `v`. -/
inductive Raw where
  | absent
  | invalid
  | value (v : Jval)

/-- Go map write `m[k] = v` on a string-keyed map, modelled on an association
list: overwrite the entry for `k` if present, otherwise add one. -/
def mapPut {α : Type} (k : String) (v : α) : List (String × α) → List (String × α)
  | [] => [(k, v)]
  | (k', v') :: rest => if k' = k then (k, v) :: rest else (k', v') :: mapPut k v rest

/-- Go map read `m[k]` (the two-result form: `some v` when the key is present). -/
def mapGet {α : Type} (k : String) : List (String × α) → Option α
  | [] => none
  | (k', v) :: rest => if k' = k then some v else mapGet k rest

/-- Key set of a modelled Go map. -/
def mapKeys {α : Type} (m : List (String × α)) : List String :=
  m.map Prod.fst

/-! Method enable/disable table (`mcpserver.go`, `Methods` / `IsMethodEnabled`
/ `SetMethodEnabled` / `ListEnabledMethods`).  The Go global map is passed
here as explicit state. -/

/-- Initial contents of the global `Methods` switch table. -/
def initMethods : List (String × Bool) :=
  [("tools.run", true), ("tools.list", true), ("resources.get", true),
   ("resources.list", true), ("prompts.get", true), ("prompts.list", true),
   ("server.info", true), ("system.describe", true),
   ("system.listMethods", true), ("system.version", true)]

/-- Embedding of `IsMethodEnabled`: present in the table and flagged true. -/
def IsMethodEnabled (methods : List (String × Bool)) (method : String) : Bool :=
  match mapGet method methods with
  | some enabled => enabled
  | none => false

/-- Embedding of `SetMethodEnabled`: update the flag only when the name is
already a key of the table; otherwise leave the table unchanged. -/
def SetMethodEnabled (methods : List (String × Bool)) (method : String)
    (enabled : Bool) : List (String × Bool) :=
  match mapGet method methods with
  | some _ => mapPut method enabled methods
  | none => methods

/-- Embedding of `ListEnabledMethods`: the names whose flag is true. -/
def ListEnabledMethods (methods : List (String × Bool)) : List String :=
  (methods.filter fun kv => kv.2).map Prod.fst

/-! Capability descriptors and the three registries (`part_001` for tools,
`resource.go`, `prompt.go`).  Each Go global registry map is passed as
explicit state. -/

/-- Tool descriptor (`part_001`): the handler maps raw argument bytes to a Go
`(interface{}, error)` pair; `Except.ok none` is a success carrying a nil
interface value. -/
structure Tool where
  Name : String
  Description : String
  Handler : Raw → Except String (Option Jval)

/-- Summary entry returned by `ListTools`. -/
structure ToolSummary where
  Name : String
  Description : String
  deriving DecidableEq

/-- Resource descriptor (`resource.go`); the Go field `Type` is rendered
`Type'` because `Type` is a Lean keyword; `Data` holds the Go `interface{}`. -/
structure Resource where
  Name : String
  Type' : String
  Data : Jval

/-- Prompt descriptor (`prompt.go`). -/
structure Prompt where
  Name : String
  Template : String
  deriving DecidableEq

/-- Embedding of `RegisterTool`: `toolRegistry[tool.Name] = tool`. -/
def RegisterTool (reg : List (String × Tool)) (tool : Tool) : List (String × Tool) :=
  mapPut tool.Name tool reg

/-- Embedding of `ListTools`: name/description summaries of every entry. -/
def ListTools (reg : List (String × Tool)) : List ToolSummary :=
  reg.map fun kv => ⟨kv.2.Name, kv.2.Description⟩

/-- Embedding of `CallToolByName`: run the registered handler, or fail with
the `tool not found: %s` error. -/
def CallToolByName (reg : List (String × Tool)) (name : String) (args : Raw) :
    Except String (Option Jval) :=
  match mapGet name reg with
  | some tool => tool.Handler args
  | none => .error ("tool not found: " ++ name)

/-- Embedding of `RegisterResource`. -/
def RegisterResource (reg : List (String × Resource)) (r : Resource) :
    List (String × Resource) :=
  mapPut r.Name r reg

/-- Embedding of `GetResource`: the registered descriptor, or the
`resource not found: %s` error. -/
def GetResource (reg : List (String × Resource)) (name : String) :
    Except String Resource :=
  match mapGet name reg with
  | some r => .ok r
  | none => .error ("resource not found: " ++ name)

/-- Embedding of `ListResources`, already under its JSON image: each entry is
the `{name, type}` object the Go code builds. -/
def ListResources (reg : List (String × Resource)) : List Jval :=
  reg.map fun kv => .obj [("name", .str kv.2.Name), ("type", .str kv.2.Type')]

/-- Embedding of `RegisterPrompt`. -/
def RegisterPrompt (reg : List (String × Prompt)) (p : Prompt) :
    List (String × Prompt) :=
  mapPut p.Name p reg

/-- Embedding of `GetPrompt`: the registered descriptor, or the
`prompt not found: %s` error. -/
def GetPrompt (reg : List (String × Prompt)) (name : String) :
    Except String Prompt :=
  match mapGet name reg with
  | some p => .ok p
  | none => .error ("prompt not found: " ++ name)

/-- Embedding of `ListPrompts`: the registered names. -/
def ListPrompts (reg : List (String × Prompt)) : List String :=
  reg.map Prod.fst

/-! Demo tool inputs and handlers (`mcpserver.go` lines 83-136) and the
`testTools` registrations (`part_001`). -/

/-- Stand-in for the message text of a Go `encoding/json` unmarshal error;
no claim inspects this text, only that the decode fails. -/
def jsonUnmarshalErrMsg : String := "json unmarshal error"

/-- Decode of a Go `string` struct field from a JSON object: an absent field
or JSON `null` leaves the zero value, a string decodes to itself, any other
JSON type is an unmarshal error. -/
def decodeStrField (k : String) (fields : List (String × Jval)) : Except Unit String :=
  match mapGet k fields with
  | none => .ok ""
  | some .null => .ok ""
  | some (.str s) => .ok s
  | some _ => .error ()

/-- Decode of a Go `int` struct field from a JSON object: absent or `null`
leaves zero, an integral number decodes, anything else is an error. -/
def decodeIntField (k : String) (fields : List (String × Jval)) : Except Unit Int :=
  match mapGet k fields with
  | none => .ok 0
  | some .null => .ok 0
  | some (.num q) => if q.den = 1 then .ok q.num else .error ()
  | some _ => .error ()

/-- Embedding of `GeocodeToolInput`. -/
structure GeocodeToolInput where
  Address : String
  City : String

/-- Embedding of `POISearchToolInput`. -/
structure POISearchToolInput where
  Keywords : String
  City : String
  Limit : Int

/-- Embedding of `RouteToolInput`. -/
structure RouteToolInput where
  Origin : String
  Destination : String
  Mode : String

/-- Unmarshal of `GeocodeToolInput` from raw bytes: a nil slice, malformed
bytes or a non-object non-null document fail; `null` leaves the zero
struct. -/
def decodeGeocodeInput : Raw → Except Unit GeocodeToolInput
  | .value .null => .ok ⟨"", ""⟩
  | .value (.obj fields) => do
    let address ← decodeStrField "address" fields
    let city ← decodeStrField "city" fields
    .ok ⟨address, city⟩
  | _ => .error ()

/-- Unmarshal of `POISearchToolInput` from raw bytes. -/
def decodePOISearchInput : Raw → Except Unit POISearchToolInput
  | .value .null => .ok ⟨"", "", 0⟩
  | .value (.obj fields) => do
    let keywords ← decodeStrField "keywords" fields
    let city ← decodeStrField "city" fields
    let limit ← decodeIntField "limit" fields
    .ok ⟨keywords, city, limit⟩
  | _ => .error ()

/-- Unmarshal of `RouteToolInput` from raw bytes. -/
def decodeRouteInput : Raw → Except Unit RouteToolInput
  | .value .null => .ok ⟨"", "", ""⟩
  | .value (.obj fields) => do
    let origin ← decodeStrField "origin" fields
    let destination ← decodeStrField "destination" fields
    let mode ← decodeStrField "mode" fields
    .ok ⟨origin, destination, mode⟩
  | _ => .error ()

/-- Embedding of `handleGeocode`; the IEEE doubles 39.9042 / 116.4074 are
rendered as rationals, and object field order follows the source's
construction order (no claim observes either). -/
def handleGeocode (input : GeocodeToolInput) : Jval :=
  .obj [("address", .str input.Address), ("lat", .num ((399042 : Rat) / 10000)),
        ("lng", .num ((1164074 : Rat) / 10000)), ("city", .str input.City)]

/-- Embedding of `handlePOISearch`: a defaulted limit of 5 when the input
limit is non-positive, then one synthetic entry per index. -/
def handlePOISearch (input : POISearchToolInput) : Jval :=
  let limit : Int := if input.Limit ≤ 0 then 5 else input.Limit
  .arr ((List.range limit.toNat).map fun i =>
    .obj [("name", .str (input.Keywords ++ "_POI_" ++ toString (i + 1))),
          ("lat", .num ((3990 : Rat) / 100 + (i : Rat) / 100)),
          ("lng", .num ((11640 : Rat) / 100 + (i : Rat) / 100)),
          ("city", .str input.City)])

/-- Embedding of `handleRoute`. -/
def handleRoute (input : RouteToolInput) : Jval :=
  .obj [("origin", .str input.Origin), ("destination", .str input.Destination),
        ("mode", .str input.Mode), ("distance", .str "10km"),
        ("duration", .str "20min")]

/-- Demo tool `geocode` as registered by `testTools`. -/
def geocodeTool : Tool :=
  ⟨"geocode", "Convert address to coordinates", fun args =>
    match decodeGeocodeInput args with
    | .error _ => .error jsonUnmarshalErrMsg
    | .ok input => .ok (some (handleGeocode input))⟩

/-- Demo tool `poi_search` as registered by `testTools`. -/
def poiSearchTool : Tool :=
  ⟨"poi_search", "Search POI by keyword", fun args =>
    match decodePOISearchInput args with
    | .error _ => .error jsonUnmarshalErrMsg
    | .ok input => .ok (some (handlePOISearch input))⟩

/-- Demo tool `route` as registered by `testTools`. -/
def routeTool : Tool :=
  ⟨"route", "Route planning between two addresses", fun args =>
    match decodeRouteInput args with
    | .error _ => .error jsonUnmarshalErrMsg
    | .ok input => .ok (some (handleRoute input))⟩

/-- Tool registry after `testTools` ran, as `StartMcpServer` arranges. -/
def demoTools : List (String × Tool) :=
  RegisterTool (RegisterTool (RegisterTool [] geocodeTool) poiSearchTool) routeTool

/-! JSON-RPC envelopes (`mcpserver.go` lines 63-80).  Ids are `uint64` in Go;
no server-side claim does id arithmetic, so `Nat` suffices here. -/

/-- Server-side request envelope `RPCRequest`. -/
structure RPCRequest where
  JsonRPC : String
  ID : Nat
  Method : String
  Params : Raw

/-- Structured error `RPCError`. -/
structure RPCError where
  Code : Int
  Message : String
  deriving DecidableEq

/-- Server-side response envelope `RPCResponse`.  Both payload fields carry
`omitempty`: `none` is an omitted field on the wire, and a handler's nil
`interface{}` result is also omitted. -/
structure RPCResponse where
  JsonRPC : String
  ID : Nat
  Result : Option Jval
  Error : Option RPCError

/-- Anonymous params struct of the `tools.run` case. -/
structure ToolsRunParams where
  Name : String
  Arguments : Raw

/-- Unmarshal of the `tools.run` params struct together with Go's
partial-fill behaviour: the flag reports whether `json.Unmarshal` returned
an error, and the struct holds whatever was decoded regardless. -/
def decodeToolsRunParams : Raw → Bool × ToolsRunParams
  | .absent => (true, ⟨"", .absent⟩)
  | .invalid => (true, ⟨"", .absent⟩)
  | .value .null => (false, ⟨"", .absent⟩)
  | .value (.obj fields) =>
    let argRaw : Raw :=
      match mapGet "arguments" fields with
      | some v => .value v
      | none => .absent
    (match mapGet "name" fields with
     | none => (false, ⟨"", argRaw⟩)
     | some .null => (false, ⟨"", argRaw⟩)
     | some (.str s) => (false, ⟨s, argRaw⟩)
     | some _ => (true, ⟨"", argRaw⟩))
  | .value _ => (true, ⟨"", .absent⟩)

/-- Unmarshal of the `struct{ Name string }` params used by `resources.get`
and `prompts.get`, with the same error flag / partial-fill convention. -/
def decodeNameParams : Raw → Bool × String
  | .absent => (true, "")
  | .invalid => (true, "")
  | .value .null => (false, "")
  | .value (.obj fields) =>
    (match mapGet "name" fields with
     | none => (false, "")
     | some .null => (false, "")
     | some (.str s) => (false, s)
     | some _ => (true, ""))
  | .value _ => (true, "")

/-- Server-side mutable state: the method switch table and the three
registries, all process-wide globals in Go. -/
structure ServerState where
  methods : List (String × Bool)
  tools : List (String × Tool)
  resources : List (String × Resource)
  prompts : List (String × Prompt)

/-- JSON image of a `[]ToolSummary` value. -/
def toolSummariesJson (reg : List (String × Tool)) : Jval :=
  .arr ((ListTools reg).map fun t =>
    .obj [("name", .str t.Name), ("description", .str t.Description)])

/-- JSON image of `listTools()`, the `tools.list` result. -/
def toolsListJson (reg : List (String × Tool)) : Jval :=
  .obj [("tools", toolSummariesJson reg)]

/-- JSON image of a `*Resource` (no json tags, so Go field names). -/
def resourceJson (r : Resource) : Jval :=
  .obj [("Name", .str r.Name), ("Type", .str r.Type'), ("Data", r.Data)]

/-- JSON image of a `*Prompt`. -/
def promptJson (p : Prompt) : Jval :=
  .obj [("Name", .str p.Name), ("Template", .str p.Template)]

/-- JSON image of the `server.info` result. -/
def serverInfoJson (reg : List (String × Tool)) : Jval :=
  .obj [("name", .str "MCP Server"), ("version", .str "1.0.0"),
        ("tools", toolSummariesJson reg)]

/-- JSON image of the `system.describe` result. -/
def systemDescribeJson (methods : List (String × Bool)) : Jval :=
  .obj [("description", .str "This is a JSON-RPC server for MCP."),
        ("version", .str "1.0.0"),
        ("methods", .arr ((ListEnabledMethods methods).map .str))]

/-- Embedding of the `switch req.Method` body of `httpHandler` (`mcpserver.go`
lines 151-231), from a decoded request envelope to the response envelope.
The enclosing body-decode failure path answers HTTP 400 with no envelope and
is outside this function.  Note the switch never consults the `Methods`
table or `IsMethodEnabled`. -/
def httpDispatch (s : ServerState) (req : RPCRequest) : RPCResponse :=
  match req.Method with
  | "tools.list" => ⟨"2.0", req.ID, some (toolsListJson s.tools), none⟩
  | "tools.run" =>
    match decodeToolsRunParams req.Params with
    | (true, _) => ⟨"2.0", req.ID, none, some ⟨-32602, "Invalid params"⟩⟩
    | (false, params) =>
      match CallToolByName s.tools params.Name params.Arguments with
      | .error e => ⟨"2.0", req.ID, none, some ⟨-32601, e⟩⟩
      | .ok result => ⟨"2.0", req.ID, result, none⟩
  | "resources.get" =>
    match decodeNameParams req.Params with
    | (true, _) => ⟨"2.0", req.ID, none, some ⟨-32602, "Invalid params"⟩⟩
    | (false, name) =>
      match GetResource s.resources name with
      | .error e => ⟨"2.0", req.ID, none, some ⟨-32601, e⟩⟩
      | .ok r => ⟨"2.0", req.ID, some (resourceJson r), none⟩
  | "resources.list" =>
    ⟨"2.0", req.ID, some (.obj [("resources", .arr (ListResources s.resources))]), none⟩
  | "prompts.get" =>
    match decodeNameParams req.Params with
    | (true, _) => ⟨"2.0", req.ID, none, some ⟨-32602, "Invalid params"⟩⟩
    | (false, name) =>
      match GetPrompt s.prompts name with
      | .error e => ⟨"2.0", req.ID, none, some ⟨-32601, e⟩⟩
      | .ok p => ⟨"2.0", req.ID, some (promptJson p), none⟩
  | "prompts.list" =>
    ⟨"2.0", req.ID, some (.obj [("prompts", .arr ((ListPrompts s.prompts).map .str))]), none⟩
  | "server.info" => ⟨"2.0", req.ID, some (serverInfoJson s.tools), none⟩
  | "system.describe" => ⟨"2.0", req.ID, some (systemDescribeJson s.methods), none⟩
  | "system.listMethods" =>
    ⟨"2.0", req.ID, some (.arr ((ListEnabledMethods s.methods).map .str)), none⟩
  | "system.version" => ⟨"2.0", req.ID, some (.str "2.0"), none⟩
  | _ => ⟨"2.0", req.ID, none, some ⟨-32601, "Method not found"⟩⟩

/-- Embedding of the per-message `switch req.Method` body of `wsHandler`
(`mcpserver.go` lines 282-354).  It duplicates the HTTP switch except in the
`tools.run` case, where the `json.Unmarshal` error is discarded and dispatch
proceeds with whatever the params struct holds (zero values on a failed
decode). -/
def wsDispatch (s : ServerState) (req : RPCRequest) : RPCResponse :=
  match req.Method with
  | "tools.list" => ⟨"2.0", req.ID, some (toolsListJson s.tools), none⟩
  | "tools.run" =>
    let params := (decodeToolsRunParams req.Params).2
    match CallToolByName s.tools params.Name params.Arguments with
    | .error e => ⟨"2.0", req.ID, none, some ⟨-32601, e⟩⟩
    | .ok result => ⟨"2.0", req.ID, result, none⟩
  | "resources.get" =>
    match decodeNameParams req.Params with
    | (true, _) => ⟨"2.0", req.ID, none, some ⟨-32602, "Invalid params"⟩⟩
    | (false, name) =>
      match GetResource s.resources name with
      | .error e => ⟨"2.0", req.ID, none, some ⟨-32601, e⟩⟩
      | .ok r => ⟨"2.0", req.ID, some (resourceJson r), none⟩
  | "resources.list" =>
    ⟨"2.0", req.ID, some (.obj [("resources", .arr (ListResources s.resources))]), none⟩
  | "prompts.get" =>
    match decodeNameParams req.Params with
    | (true, _) => ⟨"2.0", req.ID, none, some ⟨-32602, "Invalid params"⟩⟩
    | (false, name) =>
      match GetPrompt s.prompts name with
      | .error e => ⟨"2.0", req.ID, none, some ⟨-32601, e⟩⟩
      | .ok p => ⟨"2.0", req.ID, some (promptJson p), none⟩
  | "prompts.list" =>
    ⟨"2.0", req.ID, some (.obj [("prompts", .arr ((ListPrompts s.prompts).map .str))]), none⟩
  | "server.info" => ⟨"2.0", req.ID, some (serverInfoJson s.tools), none⟩
  | "system.describe" => ⟨"2.0", req.ID, some (systemDescribeJson s.methods), none⟩
  | "system.listMethods" =>
    ⟨"2.0", req.ID, some (.arr ((ListEnabledMethods s.methods).map .str)), none⟩
  | "system.version" => ⟨"2.0", req.ID, some (.str "2.0"), none⟩
  | _ => ⟨"2.0", req.ID, none, some ⟨-32601, "Method not found"⟩⟩

/-- Server state as `StartMcpServer` leaves it: `testTools` registered, the
`testResource` helper never called, both other registries empty. -/
def demoState : ServerState :=
  ⟨initMethods, demoTools, [], []⟩

/-! Client side (`mcpclient.go` and `part_000`): id counters, the capability
behaviour of each transport variant, the unified facade, and the SSE line
parser. -/

/-- Modulus of Go's `uint64`. -/
def uint64Mod : Nat := 2 ^ 64

/-- Embedding of `atomic.AddUint64(&c.counter, 1)`: the incremented value
modulo 2^64 is stored and returned.  Atomicity makes every concurrent
execution a linearization of these increments, so the multiset of ids handed
to concurrent callers of one client equals the sequential sequence modelled
below. -/
def nextID (counter : Nat) : Nat := (counter + 1) % uint64Mod

/-- Client-side request envelope `rpcRequest`; `Params` is the marshalled
argument value. -/
structure ClientRequest where
  JsonRPC : String
  ID : Nat
  Method : String
  Params : Jval

/-- Unary HTTP client (`HTTPClient`): base URL plus the id counter (a
`uint64`, zero-initialized by `NewHTTPClient`). -/
structure HTTPClient where
  URL : String
  counter : Nat

/-- Embedding of `NewHTTPClient`. -/
def NewHTTPClient (url : String) : HTTPClient := ⟨url, 0⟩

/-- Pure prefix of `HTTPClient.Call`: generate the request id and build the
envelope; the network exchange and response decoding that follow are I/O. -/
def HTTPClient.callEnvelope (c : HTTPClient) (method : String) (args : Jval) :
    ClientRequest × HTTPClient :=
  let reqID := nextID c.counter
  (⟨"2.0", reqID, method, args⟩, ⟨c.URL, reqID⟩)

/-- Ids produced by a sequence of `Call`s on one HTTP client instance. -/
def HTTPClient.callSeq (c : HTTPClient) : List (String × Jval) → List Nat
  | [] => []
  | (m, a) :: rest =>
    match c.callEnvelope m a with
    | (req, c') => req.ID :: c'.callSeq rest

/-- Duplex WebSocket client (`WSClient`): URL plus the id counter; the
underlying connection is I/O state.  `NewWSClient` zero-initializes the
counter. -/
structure WSClient where
  URL : String
  counter : Nat

/-- Embedding of the pure prefix of `WSClient.Call`, identical in structure
to the HTTP one. -/
def WSClient.callEnvelope (c : WSClient) (method : String) (args : Jval) :
    ClientRequest × WSClient :=
  let reqID := nextID c.counter
  (⟨"2.0", reqID, method, args⟩, ⟨c.URL, reqID⟩)

/-- Ids produced by a sequence of `Call`s on one WebSocket client instance. -/
def WSClient.callSeq (c : WSClient) : List (String × Jval) → List Nat
  | [] => []
  | (m, a) :: rest =>
    match c.callEnvelope m a with
    | (req, c') => req.ID :: c'.callSeq rest

/-- Embedding of `NewWSClient` after a successful dial. -/
def NewWSClient (url : String) : WSClient := ⟨url, 0⟩

/-- Push-only SSE client (`SSEClient`). -/
structure SSEClient where
  URL : String

/-- Observable first step of a client operation: either it returns a local
error before any network I/O, or it proceeds to a network exchange. -/
inductive OpBehavior where
  | immediateError (msg : String)
  | networkOp
  deriving DecidableEq

/-- Behaviour of `SSEClient.Call` (`mcpclient.go` lines 190-192): an
immediate error, no wire activity. -/
def SSEClient.CallBehavior (_ : SSEClient) : OpBehavior :=
  .immediateError "SSE client does not support RPC calls"

/-- Behaviour of `SSEClient.CallTool`, which just delegates to `Call`. -/
def SSEClient.CallToolBehavior (c : SSEClient) : OpBehavior :=
  c.CallBehavior

/-- Behaviour of `HTTPClient.ListenSSE`: an immediate error. -/
def HTTPClient.ListenSSEBehavior (_ : HTTPClient) : OpBehavior :=
  .immediateError "HTTP client does not support SSE"

/-- Behaviour of `WSClient.ListenSSE`: an immediate error. -/
def WSClient.ListenSSEBehavior (_ : WSClient) : OpBehavior :=
  .immediateError "WebSocket client does not support SSE"

/-- Unified client facade (`part_000`); behaviour selection depends only on
the `mode` string fixed at construction, so the embedded facade carries just
that. -/
structure UnifiedClient where
  mode : String
  deriving DecidableEq

/-- Embedding of `NewUnifiedClientHTTP`. -/
def NewUnifiedClientHTTP : UnifiedClient := ⟨"http"⟩

/-- Embedding of `NewUnifiedClientWS` after a successful dial. -/
def NewUnifiedClientWS : UnifiedClient := ⟨"ws"⟩

/-- Embedding of `NewUnifiedClientSSE`. -/
def NewUnifiedClientSSE : UnifiedClient := ⟨"sse"⟩

/-- Behaviour of `UnifiedClient.Call`: http/ws delegate to the inner client's
`Call` (network I/O); sse answers the mismatch error inline; an unknown mode
errors. -/
def UnifiedClient.CallBehavior (c : UnifiedClient) : OpBehavior :=
  match c.mode with
  | "http" => .networkOp
  | "ws" => .networkOp
  | "sse" => .immediateError "SSE client does not support RPC calls"
  | _ => .immediateError "unknown client mode"

/-- Behaviour of `UnifiedClient.CallTool` (same switch as `Call`). -/
def UnifiedClient.CallToolBehavior (c : UnifiedClient) : OpBehavior :=
  match c.mode with
  | "http" => .networkOp
  | "ws" => .networkOp
  | "sse" => .immediateError "SSE client does not support RPC calls"
  | _ => .immediateError "unknown client mode"

/-- Behaviour of `UnifiedClient.ServerInfo`. -/
def UnifiedClient.ServerInfoBehavior (c : UnifiedClient) : OpBehavior :=
  match c.mode with
  | "http" => .networkOp
  | "ws" => .networkOp
  | "sse" => .immediateError "SSE client does not support RPC calls"
  | _ => .immediateError "unknown client mode"

/-- Behaviour of `UnifiedClient.ServerToolsList`. -/
def UnifiedClient.ServerToolsListBehavior (c : UnifiedClient) : OpBehavior :=
  match c.mode with
  | "http" => .networkOp
  | "ws" => .networkOp
  | "sse" => .immediateError "SSE client does not support RPC calls"
  | _ => .immediateError "unknown client mode"

/-- Behaviour of `UnifiedClient.WatchEvents`: only the sse variant reaches
the wire. -/
def UnifiedClient.WatchEventsBehavior (c : UnifiedClient) : OpBehavior :=
  match c.mode with
  | "http" => .immediateError "HTTP client does not support SSE"
  | "ws" => .immediateError "WebSocket client does not support SSE"
  | "sse" => .networkOp
  | _ => .immediateError "unknown client mode"

/-! SSE push parser (`SSEClient.ListenSSE`, `mcpclient.go` lines 197-223).
Lines are `[]byte` slices in Go and are modelled as `List Char`. -/

/-- ASCII whitespace trimmed by `bytes.TrimSpace` (the non-ASCII unicode
space cases cannot occur in this protocol's frames). -/
def isSpaceChar (c : Char) : Bool :=
  c == ' ' || c == '\t' || c == '\n' || c == '\r' || c == '\x0b' || c == '\x0c'

/-- Embedding of `bytes.TrimSpace`. -/
def trimSpace (l : List Char) : List Char :=
  ((l.dropWhile isSpaceChar).reverse.dropWhile isSpaceChar).reverse

/-- Bytes of the `event: ` label tag. -/
def eventTag : List Char := ['e', 'v', 'e', 'n', 't', ':', ' ']

/-- Bytes of the `data: ` payload tag. -/
def dataTag : List Char := ['d', 'a', 't', 'a', ':', ' ']

/-- One iteration of the `ListenSSE` read loop on an already-read line:
yields the updated current event name and the callback invocation, if any. -/
def sseStep (eventName : List Char) (line : List Char) :
    List Char × Option (List Char × List Char) :=
  let l := trimSpace line
  if l.length = 0 then (eventName, none)
  else if eventTag.isPrefixOf l then (l.drop 7, none)
  else if dataTag.isPrefixOf l then (eventName, some (eventName, l.drop 6))
  else (eventName, none)

/-- Embedding of the `SSEClient.ListenSSE` loop over the complete lines read
before the stream ends, from the current event-name state (the Go `eventName`
local, initially empty): the `handler(event, data)` invocations in order. -/
def ListenSSE (eventName : List Char) : List (List Char) → List (List Char × List Char)
  | [] => []
  | line :: rest =>
    match sseStep eventName line with
    | (e', some cb) => cb :: ListenSSE e' rest
    | (e', none) => ListenSSE e' rest

/-! Lock discipline of the registry operations.  Each operation's sequence of
lock and shared-map primitives is transcribed from its source body; a map
access is race-free against concurrent registration exactly when it happens
with the store's reader/writer lock held. -/

/-- Primitive actions on a registry store: RW-lock acquire/release (write and
read side) and accesses to the shared map. -/
inductive RegAction where
  | lockW
  | unlockW
  | lockR
  | unlockR
  | mapWrite
  | mapRead
  deriving DecidableEq

/-- Action trace of `RegisterTool` (`part_001`): a bare map write, no lock. -/
def registerToolActions : List RegAction := [.mapWrite]

/-- Action trace of `ListTools`: iterates the shared map, no lock. -/
def listToolsActions : List RegAction := [.mapRead]

/-- Action trace of the registry access in `CallToolByName`: a bare map
read. -/
def callToolActions : List RegAction := [.mapRead]

/-- Action trace of `RegisterResource`: write under `resourceLock.Lock`. -/
def registerResourceActions : List RegAction := [.lockW, .mapWrite, .unlockW]

/-- Action trace of `GetResource`: read under `resourceLock.RLock`. -/
def getResourceActions : List RegAction := [.lockR, .mapRead, .unlockR]

/-- Action trace of `ListResources`: copy under `resourceLock.RLock`. -/
def listResourcesActions : List RegAction := [.lockR, .mapRead, .unlockR]

/-- Action trace of `RegisterPrompt`: write under `promptLock.Lock`. -/
def registerPromptActions : List RegAction := [.lockW, .mapWrite, .unlockW]

/-- Action trace of `GetPrompt`: read under `promptLock.RLock`. -/
def getPromptActions : List RegAction := [.lockR, .mapRead, .unlockR]

/-- Action trace of `ListPrompts`: copy under `promptLock.RLock`. -/
def listPromptsActions : List RegAction := [.lockR, .mapRead, .unlockR]

/-- Whether every shared-map access in a trace occurs while the store's lock
is held (`depth` counts currently held acquisitions). -/
def accessesGuarded : List RegAction → Nat → Bool
  | [], _ => true
  | a :: rest, depth =>
    match a with
    | .lockW => accessesGuarded rest (depth + 1)
    | .lockR => accessesGuarded rest (depth + 1)
    | .unlockW => accessesGuarded rest (depth - 1)
    | .unlockR => accessesGuarded rest (depth - 1)
    | .mapWrite => if depth = 0 then false else accessesGuarded rest depth
    | .mapRead => if depth = 0 then false else accessesGuarded rest depth

/-- Operations of the tool store. -/
def toolStoreOps : List (List RegAction) :=
  [registerToolActions, listToolsActions, callToolActions]

/-- Operations of the resource store. -/
def resourceStoreOps : List (List RegAction) :=
  [registerResourceActions, getResourceActions, listResourcesActions]

/-- Operations of the prompt store. -/
def promptStoreOps : List (List RegAction) :=
  [registerPromptActions, getPromptActions, listPromptsActions]

/-! Observation helpers and concrete fixtures used by the claims. -/

/-- Result/error exclusivity of a response envelope: exactly one of the two
`omitempty` payload fields is present on the wire. -/
def exclusiveOutcome (r : RPCResponse) : Bool :=
  Bool.xor r.Result.isSome r.Error.isSome

/-- Server state with `tools.list` switched off via `SetMethodEnabled`, the
demo tools registered. -/
def disabledToolsListState : ServerState :=
  ⟨SetMethodEnabled initMethods "tools.list" false, demoTools, [], []⟩

/-- A registrable tool whose handler succeeds with a Go nil `interface{}`
result (`return nil, nil`). -/
def nilTool : Tool :=
  ⟨"nil_tool", "succeeds with a nil result", fun _ => .ok none⟩

/-- Server state with only `nilTool` registered. -/
def nilToolState : ServerState :=
  ⟨initMethods, RegisterTool [] nilTool, [], []⟩

/-- A registrable tool under the zero-valued name `""`, whose handler reports
that it ran. -/
def emptyNameTool : Tool :=
  ⟨"", "tool registered under the zero-valued name", fun _ =>
    .ok (some (.str "handler ran with zero-valued params"))⟩

/-- Server state with only `emptyNameTool` registered. -/
def emptyNameToolState : ServerState :=
  ⟨initMethods, RegisterTool [] emptyNameTool, [], []⟩

/-- The resource `test1` that `testResource` would register. -/
def testR1 : Resource :=
  ⟨"test1", "string", .str "hello world"⟩

/-- The names of the ten methods in the initial switch table. -/
def initMethodNames : List String :=
  ["tools.run", "tools.list", "resources.get", "resources.list",
   "prompts.get", "prompts.list", "server.info", "system.describe",
   "system.listMethods", "system.version"]

/-! Theorems.  General lemmas about the map model come first, then one
theorem per claim (with its witness or counterexample where required). -/

theorem mapGet_mapPut_self {α : Type} (k : String) (v : α) :
    ∀ m : List (String × α), mapGet k (mapPut k v m) = some v := by
  intro m
  induction m with
  | nil => simp [mapPut, mapGet]
  | cons kv rest ih =>
    obtain ⟨k', v'⟩ := kv
    by_cases h : k' = k <;> simp [mapPut, mapGet, h, ih]

theorem mapGet_mapPut_ne {α : Type} {k k' : String} (h : k' ≠ k) (v : α) :
    ∀ m : List (String × α), mapGet k (mapPut k' v m) = mapGet k m := by
  intro m
  induction m with
  | nil => simp [mapPut, mapGet, h]
  | cons kv rest ih =>
    obtain ⟨k'', v''⟩ := kv
    by_cases h3 : k'' = k
    · subst h3
      simp [mapPut, mapGet, Ne.symm h]
    · by_cases h4 : k'' = k'
      · subst h4
        simp [mapPut, mapGet, h]
      · simp [mapPut, mapGet, h3, h4, ih]

theorem mapKeys_mapPut_mem {α : Type} (k : String) (v : α) :
    ∀ m : List (String × α), mapGet k m ≠ none → mapKeys (mapPut k v m) = mapKeys m := by
  intro m
  induction m with
  | nil => intro h; simp [mapGet] at h
  | cons kv rest ih =>
    obtain ⟨k', v'⟩ := kv
    by_cases h : k' = k
    · intro _
      simp [mapPut, mapKeys, h]
    · intro hm
      simp [mapGet, h] at hm
      simp [mapPut, mapKeys, h] at ih ⊢
      exact ih hm

theorem mapGet_foldl_mapPut_of_ne {α : Type} (key : α → String) (n : String) :
    ∀ (xs : List α) (m : List (String × α)), (∀ x ∈ xs, key x ≠ n) →
      mapGet n m = none →
      mapGet n (xs.foldl (fun acc x => mapPut (key x) x acc) m) = none := by
  intro xs
  induction xs with
  | nil => intro m _ hm; exact hm
  | cons x rest ih =>
    intro m hx hm
    simp only [List.foldl_cons]
    apply ih
    · intro y hy
      exact hx y (List.mem_cons_of_mem _ hy)
    · rw [mapGet_mapPut_ne (hx x (List.mem_cons_self x rest))]
      exact hm

/-- None of the three demo tool handlers ever succeeds with a nil result:
each either fails the decode or returns a non-nil object. -/
theorem demoTools_no_nil_success :
    ∀ name args, CallToolByName demoTools name args ≠ .ok none := by
  intro name args
  unfold CallToolByName
  have hd : mapGet name demoTools =
      if "geocode" = name then some geocodeTool
      else if "poi_search" = name then some poiSearchTool
      else if "route" = name then some routeTool
      else none := rfl
  rw [hd]
  split_ifs
  · cases hg : decodeGeocodeInput args <;> simp [geocodeTool, hg]
  · cases hg : decodePOISearchInput args <;> simp [poiSearchTool, hg]
  · cases hg : decodeRouteInput args <;> simp [routeTool, hg]
  · simp

/-- The ids of consecutive HTTP client calls starting from counter value
`c.counter` form the interval starting at `c.counter + 1`, as long as the
`uint64` counter does not wrap. -/
theorem callSeq_eq_range'_http :
    ∀ (calls : List (String × Jval)) (c : HTTPClient),
      c.counter + calls.length < uint64Mod →
      c.callSeq calls = List.range' (c.counter + 1) calls.length := by
  intro calls
  induction calls with
  | nil => intro c _; rfl
  | cons ca rest ih =>
    intro c h
    obtain ⟨m, a⟩ := ca
    simp only [List.length_cons] at h
    have hid : nextID c.counter = c.counter + 1 := Nat.mod_eq_of_lt (by omega)
    show nextID c.counter :: HTTPClient.callSeq ⟨c.URL, nextID c.counter⟩ rest = _
    rw [hid, ih ⟨c.URL, c.counter + 1⟩
      (by simpa using (by omega : (c.counter + 1) + rest.length < uint64Mod))]
    simp [List.length_cons, List.range'_succ, Nat.add_assoc]

/-- WebSocket client analogue of `callSeq_eq_range'_http`. -/
theorem callSeq_eq_range'_ws :
    ∀ (calls : List (String × Jval)) (c : WSClient),
      c.counter + calls.length < uint64Mod →
      c.callSeq calls = List.range' (c.counter + 1) calls.length := by
  intro calls
  induction calls with
  | nil => intro c _; rfl
  | cons ca rest ih =>
    intro c h
    obtain ⟨m, a⟩ := ca
    simp only [List.length_cons] at h
    have hid : nextID c.counter = c.counter + 1 := Nat.mod_eq_of_lt (by omega)
    show nextID c.counter :: WSClient.callSeq ⟨c.URL, nextID c.counter⟩ rest = _
    rw [hid, ih ⟨c.URL, c.counter + 1⟩
      (by simpa using (by omega : (c.counter + 1) + rest.length < uint64Mod))]
    simp [List.length_cons, List.range'_succ, Nat.add_assoc]

/-- A line that trims to empty neither fires a callback nor changes the
current event name. -/
theorem sseStep_blank (s line : List Char) (h : trimSpace line = []) :
    sseStep s line = (s, none) := by
  simp only [sseStep, h]
  rfl

/-- A trim-stable label line replaces the current event name and fires no
callback. -/
theorem sseStep_event (s e : List Char) (he : trimSpace (eventTag ++ e) = eventTag ++ e) :
    sseStep s (eventTag ++ e) = (e, none) := by
  have hlen : (eventTag ++ e).length = e.length + 7 := rfl
  have hpre : eventTag.isPrefixOf (eventTag ++ e) = true := by simp
  have hdrop : List.drop 7 (eventTag ++ e) = e := rfl
  simp only [sseStep, he]
  simp [hlen, hpre, hdrop]

/-- A trim-stable payload line fires the callback with the current event name
and leaves the name unchanged. -/
theorem sseStep_data (s p : List Char) (hp : trimSpace (dataTag ++ p) = dataTag ++ p) :
    sseStep s (dataTag ++ p) = (s, some (s, p)) := by
  have hlen : (dataTag ++ p).length = p.length + 6 := rfl
  have hnot : eventTag.isPrefixOf (dataTag ++ p) = false := by
    simp [eventTag, dataTag, List.isPrefixOf]
  have hpre : dataTag.isPrefixOf (dataTag ++ p) = true := by simp
  have hdrop : List.drop 6 (dataTag ++ p) = p := rfl
  simp only [sseStep, hp]
  simp [hlen, hnot, hpre, hdrop]

/-- Blank lines are skipped without resetting state or terminating the
stream. -/
theorem ListenSSE_blank (s blank : List Char) (rest : List (List Char))
    (h : trimSpace blank = []) :
    ListenSSE s (blank :: rest) = ListenSSE s rest := by
  rw [ListenSSE, sseStep_blank s blank h]

/-- A run of payload lines each fires the callback tagged with the current
event name, which persists across the whole run. -/
theorem ListenSSE_datas (e : List Char) :
    ∀ (ps rest : List (List Char)),
      (∀ p ∈ ps, trimSpace (dataTag ++ p) = dataTag ++ p) →
      ListenSSE e ((ps.map fun p => dataTag ++ p) ++ rest)
        = (ps.map fun p => (e, p)) ++ ListenSSE e rest := by
  intro ps
  induction ps with
  | nil => intro rest _; rfl
  | cons p ps ih =>
    intro rest hp
    simp only [List.map_cons, List.cons_append]
    simp only [ListenSSE, sseStep_data e p (hp p (List.mem_cons_self p ps))]
    rw [ih rest (fun q hq => hp q (List.mem_cons_of_mem _ hq))]

/-- A label line followed by a run of payload lines fires one callback per
payload line, all tagged with that label. -/
theorem ListenSSE_event_datas (s e : List Char) (ps rest : List (List Char))
    (he : trimSpace (eventTag ++ e) = eventTag ++ e)
    (hp : ∀ p ∈ ps, trimSpace (dataTag ++ p) = dataTag ++ p) :
    ListenSSE s ((eventTag ++ e) :: ((ps.map fun p => dataTag ++ p) ++ rest))
      = (ps.map fun p => (e, p)) ++ ListenSSE e rest := by
  rw [ListenSSE, sseStep_event s e he]
  exact ListenSSE_datas e ps rest hp

/-- C1: the claim that dispatching a disabled method is indistinguishable
from dispatching an absent one fails on the code: neither dispatch switch
consults the `Methods` table, so after `SetMethodEnabled "tools.list" false`
a `tools.list` request still answers with a result and no error, while an
absent method name answers the -32601 method-not-found error. -/
theorem C1_disabled_method_still_dispatched :
    IsMethodEnabled disabledToolsListState.methods "tools.list" = false ∧
    (httpDispatch disabledToolsListState ⟨"2.0", 1, "tools.list", .value .null⟩).Error = none ∧
    (httpDispatch disabledToolsListState ⟨"2.0", 1, "tools.list", .value .null⟩).Result.isSome
      = true ∧
    (wsDispatch disabledToolsListState ⟨"2.0", 1, "tools.list", .value .null⟩).Error = none ∧
    (httpDispatch disabledToolsListState ⟨"2.0", 1, "missing.method", .value .null⟩).Error
      = some ⟨-32601, "Method not found"⟩ ∧
    (httpDispatch disabledToolsListState ⟨"2.0", 1, "missing.method", .value .null⟩).Result
      = none :=
  ⟨rfl, rfl, rfl, rfl, rfl, rfl⟩

/-- C2: the claim that a params decode failure always yields the -32602
invalid-params error fails on the duplex binding: `wsHandler`'s `tools.run`
case discards the unmarshal error, proceeds with the zero-valued params
struct, and answers -32601 `tool not found: ` — and when a tool is
registered under the zero-valued name its handler is actually invoked.  The
unary binding answers -32602 as the claim says. -/
theorem C2_ws_decode_failure_falls_through :
    (decodeToolsRunParams .invalid).1 = true ∧
    httpDispatch demoState ⟨"2.0", 3, "tools.run", .invalid⟩
      = ⟨"2.0", 3, none, some ⟨-32602, "Invalid params"⟩⟩ ∧
    wsDispatch demoState ⟨"2.0", 3, "tools.run", .invalid⟩
      = ⟨"2.0", 3, none, some ⟨-32601, "tool not found: "⟩⟩ ∧
    wsDispatch emptyNameToolState ⟨"2.0", 4, "tools.run", .invalid⟩
      = ⟨"2.0", 4, some (.str "handler ran with zero-valued params"), none⟩ :=
  ⟨rfl, rfl, rfl, rfl⟩

/-- C3 counterexample: a registered tool whose handler succeeds with a Go nil
result produces a response envelope in which neither the result nor the
error field is populated, on both bindings. -/
theorem C3_nil_result_counterexample :
    exclusiveOutcome (httpDispatch nilToolState
      ⟨"2.0", 7, "tools.run", .value (.obj [("name", .str "nil_tool")])⟩) = false ∧
    (httpDispatch nilToolState
      ⟨"2.0", 7, "tools.run", .value (.obj [("name", .str "nil_tool")])⟩).Result = none ∧
    (httpDispatch nilToolState
      ⟨"2.0", 7, "tools.run", .value (.obj [("name", .str "nil_tool")])⟩).Error = none ∧
    (wsDispatch nilToolState
      ⟨"2.0", 7, "tools.run", .value (.obj [("name", .str "nil_tool")])⟩).Result = none ∧
    (wsDispatch nilToolState
      ⟨"2.0", 7, "tools.run", .value (.obj [("name", .str "nil_tool")])⟩).Error = none :=
  ⟨rfl, rfl, rfl, rfl, rfl⟩

/-- C3 amended: for every server state whose registered tool handlers never
succeed with a nil result (true of every handler this program registers),
every response envelope of either dispatch switch populates exactly one of
the result and error fields. -/
theorem C3_exclusive_outcome_amended (s : ServerState) (req : RPCRequest)
    (h : ∀ name args, CallToolByName s.tools name args ≠ .ok none) :
    exclusiveOutcome (httpDispatch s req) = true ∧
    exclusiveOutcome (wsDispatch s req) = true := by
  constructor
  · unfold httpDispatch
    repeat' split
    all_goals try rfl
    all_goals
      rename_i result heq
      cases result with
      | none => exact absurd heq (h _ _)
      | some v => rfl
  · unfold wsDispatch
    repeat' split
    all_goals try rfl
    all_goals simp only []
    all_goals repeat' split
    all_goals try rfl
    all_goals
      rename_i result heq
      cases result with
      | none => exact absurd heq (h _ _)
      | some v => rfl

/-- C3 witness: the amended exclusivity theorem applied to the demo state and
a concrete `tools.run` request. -/
theorem C3_exclusive_outcome_amended_witness :
    exclusiveOutcome (httpDispatch demoState
      ⟨"2.0", 5, "tools.run", .value (.obj [("name", .str "geocode")])⟩) = true ∧
    exclusiveOutcome (wsDispatch demoState
      ⟨"2.0", 5, "tools.run", .value (.obj [("name", .str "geocode")])⟩) = true :=
  C3_exclusive_outcome_amended demoState
    ⟨"2.0", 5, "tools.run", .value (.obj [("name", .str "geocode")])⟩
    demoTools_no_nil_success

/-- C4: on one client instance (unary HTTP or duplex WebSocket), the ids of a
sequence of calls are exactly 1, 2, 3, …, hence strictly increasing, unique,
and starting at 1, as long as the `uint64` counter does not wrap; the
generating `atomic.AddUint64` linearizes concurrent callers into exactly this
sequence. -/
theorem C4_client_ids_strictly_increasing (url : String)
    (calls : List (String × Jval)) (h : calls.length < uint64Mod) :
    (NewHTTPClient url).callSeq calls = List.range' 1 calls.length ∧
    ((NewHTTPClient url).callSeq calls).Pairwise (· < ·) ∧
    ((NewHTTPClient url).callSeq calls).Nodup ∧
    (0 < calls.length → ((NewHTTPClient url).callSeq calls).head? = some 1) ∧
    (NewWSClient url).callSeq calls = List.range' 1 calls.length ∧
    ((NewWSClient url).callSeq calls).Pairwise (· < ·) ∧
    ((NewWSClient url).callSeq calls).Nodup ∧
    (0 < calls.length → ((NewWSClient url).callSeq calls).head? = some 1) := by
  have e1 : (NewHTTPClient url).callSeq calls = List.range' 1 calls.length := by
    simpa [NewHTTPClient] using callSeq_eq_range'_http calls (NewHTTPClient url)
      (by simpa [NewHTTPClient] using h)
  have e2 : (NewWSClient url).callSeq calls = List.range' 1 calls.length := by
    simpa [NewWSClient] using callSeq_eq_range'_ws calls (NewWSClient url)
      (by simpa [NewWSClient] using h)
  refine ⟨e1, ?_, ?_, ?_, e2, ?_, ?_, ?_⟩
  · rw [e1]; exact List.pairwise_lt_range' 1 calls.length
  · rw [e1]; exact List.nodup_range' 1 calls.length
  · intro hpos
    rw [e1, List.head?_range']
    simp [Nat.pos_iff_ne_zero.mp hpos]
  · rw [e2]; exact List.pairwise_lt_range' 1 calls.length
  · rw [e2]; exact List.nodup_range' 1 calls.length
  · intro hpos
    rw [e2, List.head?_range']
    simp [Nat.pos_iff_ne_zero.mp hpos]

/-- C4 witness: three calls on a fresh HTTP client get ids 1, 2, 3, and the
first id is 1. -/
theorem C4_client_ids_strictly_increasing_witness :
    (NewHTTPClient "http://localhost:8074/mcp").callSeq
        [("server.info", .null), ("tools.list", .null), ("system.version", .null)]
      = List.range' 1 3 ∧
    ((NewHTTPClient "http://localhost:8074/mcp").callSeq
        [("server.info", .null), ("tools.list", .null), ("system.version", .null)]).head?
      = some 1 :=
  ⟨(C4_client_ids_strictly_increasing "http://localhost:8074/mcp"
      [("server.info", .null), ("tools.list", .null), ("system.version", .null)]
      (by decide)).1,
   (C4_client_ids_strictly_increasing "http://localhost:8074/mcp"
      [("server.info", .null), ("tools.list", .null), ("system.version", .null)]
      (by decide)).2.2.2.1 (by decide)⟩

/-- C5 counterexample: the claim that all three registries are guarded by a
reader/writer lock fails for the tool store, whose registration is a bare
map write with no lock acquisition. -/
theorem C5_tool_registry_unguarded_counterexample :
    ((toolStoreOps ++ resourceStoreOps ++ promptStoreOps).all
        fun ops => accessesGuarded ops 0) = false ∧
    accessesGuarded registerToolActions 0 = false :=
  ⟨rfl, rfl⟩

/-- C5 amended: the resource and prompt stores run every map access with
their reader/writer lock held, while none of the tool store's operations
takes any lock. -/
theorem C5_lock_guard_amended :
    ((resourceStoreOps ++ promptStoreOps).all fun ops => accessesGuarded ops 0) = true ∧
    (toolStoreOps.all fun ops => accessesGuarded ops 0) = false :=
  ⟨rfl, rfl⟩

/-- C6: the push parser keeps the current event name as state — a label line
sets it, each payload line under it immediately fires the callback tagged
with it (one callback per payload line, all with the same tag), and a line
that trims to blank is skipped without resetting the state. -/
theorem C6_push_parser_stateful (s e : List Char) (ps rest : List (List Char))
    (he : trimSpace (eventTag ++ e) = eventTag ++ e)
    (hp : ∀ p ∈ ps, trimSpace (dataTag ++ p) = dataTag ++ p) :
    ListenSSE s ((eventTag ++ e) :: ((ps.map fun p => dataTag ++ p) ++ rest))
      = (ps.map fun p => (e, p)) ++ ListenSSE e rest ∧
    (∀ (s' blank : List Char) (rest' : List (List Char)),
      trimSpace blank = [] → ListenSSE s' (blank :: rest') = ListenSSE s' rest') :=
  ⟨ListenSSE_event_datas s e ps rest he hp,
   fun s' blank rest' hb => ListenSSE_blank s' blank rest' hb⟩

/-- C6 witness: one `event: update` label line followed by two payload lines
fires the callback exactly twice, both tagged `update`; a blank line between
payloads is skipped. -/
theorem C6_push_parser_stateful_witness :
    ListenSSE [] (("event: update").toList ::
        [("data: \x7b\"a\":1\x7d").toList, ("data: \x7b\"a\":2\x7d").toList])
      = [(("update").toList, ("\x7b\"a\":1\x7d").toList),
         (("update").toList, ("\x7b\"a\":2\x7d").toList)] ∧
    ListenSSE ("update").toList ([' '] :: []) = [] :=
  ⟨(C6_push_parser_stateful [] ("update").toList
      [("\x7b\"a\":1\x7d").toList, ("\x7b\"a\":2\x7d").toList] []
      (by decide) (by decide)).1,
   (C6_push_parser_stateful [] ("update").toList [] []
      (by decide) (by decide)).2 ("update").toList [' '] [] (by decide)⟩

/-- C7: an operation unsupported by the bound transport variant returns the
capability-mismatch error immediately and performs no network I/O: RPC-style
operations on the sse variant, and event subscription on the http and ws
variants; the standalone transport clients behave the same way. -/
theorem C7_capability_mismatch_immediate (c : UnifiedClient) :
    (c.mode = "sse" →
      c.CallBehavior = .immediateError "SSE client does not support RPC calls" ∧
      c.CallToolBehavior = .immediateError "SSE client does not support RPC calls" ∧
      c.ServerInfoBehavior = .immediateError "SSE client does not support RPC calls" ∧
      c.ServerToolsListBehavior = .immediateError "SSE client does not support RPC calls" ∧
      c.CallBehavior ≠ .networkOp) ∧
    (c.mode = "http" →
      c.WatchEventsBehavior = .immediateError "HTTP client does not support SSE" ∧
      c.WatchEventsBehavior ≠ .networkOp) ∧
    (c.mode = "ws" →
      c.WatchEventsBehavior = .immediateError "WebSocket client does not support SSE" ∧
      c.WatchEventsBehavior ≠ .networkOp) ∧
    (∀ sc : SSEClient,
      sc.CallBehavior = .immediateError "SSE client does not support RPC calls" ∧
      sc.CallToolBehavior = .immediateError "SSE client does not support RPC calls") ∧
    (∀ hc : HTTPClient,
      hc.ListenSSEBehavior = .immediateError "HTTP client does not support SSE") ∧
    (∀ wc : WSClient,
      wc.ListenSSEBehavior = .immediateError "WebSocket client does not support SSE") := by
  obtain ⟨m⟩ := c
  refine ⟨?_, ?_, ?_, fun sc => ⟨rfl, rfl⟩, fun hc => rfl, fun wc => rfl⟩
  · intro hm
    simp only at hm
    subst hm
    exact ⟨rfl, rfl, rfl, rfl, by decide⟩
  · intro hm
    simp only at hm
    subst hm
    exact ⟨rfl, by decide⟩
  · intro hm
    simp only at hm
    subst hm
    exact ⟨rfl, by decide⟩

/-- C7 witness: the mismatch errors on the three concretely constructed
facade variants. -/
theorem C7_capability_mismatch_immediate_witness :
    NewUnifiedClientSSE.CallBehavior
      = .immediateError "SSE client does not support RPC calls" ∧
    NewUnifiedClientHTTP.WatchEventsBehavior
      = .immediateError "HTTP client does not support SSE" ∧
    NewUnifiedClientWS.WatchEventsBehavior
      = .immediateError "WebSocket client does not support SSE" :=
  ⟨((C7_capability_mismatch_immediate NewUnifiedClientSSE).1 rfl).1,
   ((C7_capability_mismatch_immediate NewUnifiedClientHTTP).2.1 rfl).1,
   ((C7_capability_mismatch_immediate NewUnifiedClientWS).2.2.1 rfl).1⟩

/-- C8: registration followed by lookup round-trips in each registry,
re-registration under the same name overwrites (last write wins), and a name
never registered fails with the store's not-found error. -/
theorem C8_registry_roundtrip :
    (∀ (reg : List (String × Resource)) (r : Resource),
        GetResource (RegisterResource reg r) r.Name = .ok r) ∧
    (∀ (reg : List (String × Prompt)) (p : Prompt),
        GetPrompt (RegisterPrompt reg p) p.Name = .ok p) ∧
    (∀ (reg : List (String × Tool)) (t : Tool),
        mapGet t.Name (RegisterTool reg t) = some t) ∧
    (∀ (reg : List (String × Resource)) (r r' : Resource), r'.Name = r.Name →
        GetResource (RegisterResource (RegisterResource reg r') r) r.Name = .ok r) ∧
    (∀ (rs : List Resource) (n : String), (∀ r ∈ rs, r.Name ≠ n) →
        GetResource (rs.foldl RegisterResource []) n
          = .error ("resource not found: " ++ n)) ∧
    (∀ (ps : List Prompt) (n : String), (∀ p ∈ ps, p.Name ≠ n) →
        GetPrompt (ps.foldl RegisterPrompt []) n
          = .error ("prompt not found: " ++ n)) ∧
    (∀ (ts : List Tool) (n : String) (args : Raw), (∀ t ∈ ts, t.Name ≠ n) →
        CallToolByName (ts.foldl RegisterTool []) n args
          = .error ("tool not found: " ++ n)) := by
  refine ⟨?_, ?_, ?_, ?_, ?_, ?_, ?_⟩
  · intro reg r
    unfold GetResource RegisterResource
    rw [mapGet_mapPut_self]
  · intro reg p
    unfold GetPrompt RegisterPrompt
    rw [mapGet_mapPut_self]
  · intro reg t
    unfold RegisterTool
    rw [mapGet_mapPut_self]
  · intro reg r r' _
    unfold GetResource RegisterResource
    rw [mapGet_mapPut_self]
  · intro rs n h
    unfold GetResource
    have hnone : mapGet n (List.foldl RegisterResource [] rs) = none :=
      mapGet_foldl_mapPut_of_ne Resource.Name n rs [] h rfl
    rw [hnone]
  · intro ps n h
    unfold GetPrompt
    have hnone : mapGet n (List.foldl RegisterPrompt [] ps) = none :=
      mapGet_foldl_mapPut_of_ne Prompt.Name n ps [] h rfl
    rw [hnone]
  · intro ts n args h
    unfold CallToolByName
    have hnone : mapGet n (List.foldl RegisterTool [] ts) = none :=
      mapGet_foldl_mapPut_of_ne Tool.Name n ts [] h rfl
    rw [hnone]

/-- C8 witness: the round-trip on the `test1` resource and the not-found
error on an empty tool registry. -/
theorem C8_registry_roundtrip_witness :
    GetResource (RegisterResource [] testR1) "test1" = .ok testR1 ∧
    CallToolByName [] "ghost" .absent = .error "tool not found: ghost" :=
  ⟨C8_registry_roundtrip.1 [] testR1,
   C8_registry_roundtrip.2.2.2.2.2.2 [] "ghost" .absent (by simp)⟩

/-- C9: invoking a tool name not present in the registry yields the
structured error `tool not found: <name>`, whose message contains the name,
both from `CallToolByName` directly and wrapped (with code -32601) by either
dispatch switch. -/
theorem C9_unregistered_tool_message (s : ServerState) (n : String) (args : Raw)
    (id : Nat) (h : mapGet n s.tools = none) :
    CallToolByName s.tools n args = .error ("tool not found: " ++ n) ∧
    (httpDispatch s ⟨"2.0", id, "tools.run", .value (.obj [("name", .str n)])⟩).Error
      = some ⟨-32601, "tool not found: " ++ n⟩ ∧
    (wsDispatch s ⟨"2.0", id, "tools.run", .value (.obj [("name", .str n)])⟩).Error
      = some ⟨-32601, "tool not found: " ++ n⟩ ∧
    ∃ pre suf, "tool not found: " ++ n = pre ++ n ++ suf := by
  have hc : ∀ a : Raw, CallToolByName s.tools n a = .error ("tool not found: " ++ n) := by
    intro a
    unfold CallToolByName
    rw [h]
  refine ⟨hc args, ?_, ?_, ⟨"tool not found: ", "", by simp⟩⟩
  · rw [show httpDispatch s ⟨"2.0", id, "tools.run", .value (.obj [("name", .str n)])⟩
        = (match CallToolByName s.tools n Raw.absent with
           | .error e => ⟨"2.0", id, none, some ⟨-32601, e⟩⟩
           | .ok result => ⟨"2.0", id, result, none⟩) from rfl]
    rw [hc Raw.absent]
  · rw [show wsDispatch s ⟨"2.0", id, "tools.run", .value (.obj [("name", .str n)])⟩
        = (match CallToolByName s.tools n Raw.absent with
           | .error e => ⟨"2.0", id, none, some ⟨-32601, e⟩⟩
           | .ok result => ⟨"2.0", id, result, none⟩) from rfl]
    rw [hc Raw.absent]

/-- C9 witness: the unregistered name `ghost` against the demo registry. -/
theorem C9_unregistered_tool_message_witness :
    CallToolByName demoState.tools "ghost" .absent = .error "tool not found: ghost" ∧
    (httpDispatch demoState ⟨"2.0", 9, "tools.run", .value (.obj [("name", .str "ghost")])⟩).Error
      = some ⟨-32601, "tool not found: ghost"⟩ :=
  ⟨(C9_unregistered_tool_message demoState "ghost" .absent 9 rfl).1,
   (C9_unregistered_tool_message demoState "ghost" .absent 9 rfl).2.1⟩

/-- C10: the key set of the method switch table is constant:
`SetMethodEnabled` never changes the keys, is a no-op for a name outside the
table, updates the flag for a name inside it, the initial table holds
exactly the ten method names, and any sequence of `SetMethodEnabled` calls
leaves the key set equal to those ten names. -/
theorem C10_method_table_keys_constant :
    (∀ (methods : List (String × Bool)) (m : String) (f : Bool),
        mapKeys (SetMethodEnabled methods m f) = mapKeys methods) ∧
    (∀ (methods : List (String × Bool)) (m : String) (f : Bool),
        mapGet m methods = none → SetMethodEnabled methods m f = methods) ∧
    (∀ (methods : List (String × Bool)) (m : String) (f : Bool),
        mapGet m methods ≠ none → IsMethodEnabled (SetMethodEnabled methods m f) m = f) ∧
    mapKeys initMethods = initMethodNames ∧
    (∀ (ops : List (String × Bool)),
        mapKeys (ops.foldl (fun acc op => SetMethodEnabled acc op.1 op.2) initMethods)
          = initMethodNames) := by
  have h1 : ∀ (methods : List (String × Bool)) (m : String) (f : Bool),
      mapKeys (SetMethodEnabled methods m f) = mapKeys methods := by
    intro methods m f
    unfold SetMethodEnabled
    cases hg : mapGet m methods with
    | none => rfl
    | some b => exact mapKeys_mapPut_mem m f methods (by simp [hg])
  have haux : ∀ (ops m0 : List (String × Bool)),
      mapKeys (ops.foldl (fun acc op => SetMethodEnabled acc op.1 op.2) m0) = mapKeys m0 := by
    intro ops
    induction ops with
    | nil => intro m0; rfl
    | cons op rest ih =>
      intro m0
      simp only [List.foldl_cons]
      rw [ih (SetMethodEnabled m0 op.1 op.2), h1]
  refine ⟨h1, ?_, ?_, rfl, fun ops => by rw [haux ops initMethods]; rfl⟩
  · intro methods m f hm
    unfold SetMethodEnabled
    rw [hm]
  · intro methods m f hm
    unfold SetMethodEnabled IsMethodEnabled
    cases hg : mapGet m methods with
    | none => exact absurd hg hm
    | some b => rw [mapGet_mapPut_self]

/-- C10 witness: toggling a foreign name is a no-op; toggling `tools.run`
updates its flag and leaves the key set unchanged. -/
theorem C10_method_table_keys_constant_witness :
    SetMethodEnabled initMethods "no.such.method" true = initMethods ∧
    IsMethodEnabled (SetMethodEnabled initMethods "tools.run" false) "tools.run" = false ∧
    mapKeys (SetMethodEnabled initMethods "tools.run" false) = mapKeys initMethods :=
  ⟨C10_method_table_keys_constant.2.1 initMethods "no.such.method" true rfl,
   C10_method_table_keys_constant.2.2.1 initMethods "tools.run" false (by decide),
   C10_method_table_keys_constant.1 initMethods "tools.run" false⟩

end GoMCP
